import Mathlib

/-!
# Verification of AxePoolSetter (`src/backend/app.py`)

Shallow embedding of the Flask backend in `src/backend/app.py` together with
proofs and refutations of the specification claims.

Modelling conventions:
* JSON values are the inductive `JVal`; JSON objects are association lists
  (`JObj`), with `jget` mirroring Python `dict.get`.
* The SQLite table `devices (ip TEXT PRIMARY KEY, hostname TEXT, last_seen)`
  is modelled as an association list from ip to hostname (`Registry`);
  `INSERT OR REPLACE` is `Registry.upsert`.
* A network interaction is modelled by its observable outcome (`HttpOutcome`
  for GET probes, `PushOutcome` for PATCH pushes); exception classes raised by
  the `requests` library become constructors, and `response.raise_for_status()`
  is the check `400 ≤ status < 600` it performs.
* Handlers that touch both the network and the database become pure functions
  from (registry state, outcome oracle) to (response value, new registry state,
  dispatched network requests).
-/

namespace AxePool

/-- A JSON value as seen by the backend.  Objects are modelled separately as
association lists (`JObj`); nested arrays are not modelled because the code
never constructs or inspects one (non-object documents are only ever tested
for being a `dict`). -/
inductive JVal where
  | jstr (s : String)
  | jnum (n : Int)
  | jbool (b : Bool)
  | jnull
  deriving DecidableEq, Repr

/-- A JSON object: association list from key to value (Python `dict`). -/
abbrev JObj := List (String × JVal)

/-- Python `o.get(k)` on object `o`: the value stored under `k`, if any. -/
def jget : JObj → String → Option JVal
  | [], _ => none
  | (k, v) :: rest, key => if k = key then some v else jget rest key

/-- Python `o.get(k, d)`. -/
def jgetD (o : JObj) (k : String) (d : JVal) : JVal :=
  (jget o k).getD d

/-- Python truthiness of a JSON value (`if not x`). -/
def JVal.truthy : JVal → Bool
  | .jstr s => !s.isEmpty
  | .jnum n => n != 0
  | .jbool b => b
  | .jnull => false

/-- Python `str()` rendering of a JSON value, used when a value is
interpolated into an URL f-string. -/
def JVal.render : JVal → String
  | .jstr s => s
  | .jnum n => toString n
  | .jbool true => "True"
  | .jbool false => "False"
  | .jnull => "None"

/-- A top-level JSON document returned by `response.json()`: either an object
(a `dict`, which has `.get`) or some non-object value (on which `.get` raises
`AttributeError`). -/
inductive JTop where
  | obj (o : JObj)
  | other (v : JVal)
  deriving DecidableEq, Repr

/-- Result of reading an HTTP response body: a JSON document, or a
`JSONDecodeError` from `response.json()`. -/
inductive Body where
  | json (v : JTop)
  | invalid
  deriving DecidableEq, Repr

/-- Observable outcome of `requests.get(url, timeout=2)`:
a `Timeout`, some other `RequestException` (connection refused, DNS failure,
…, carrying `str(e)`), or a response with a status code and a body. -/
inductive HttpOutcome where
  | timeout
  | connError (msg : String)
  | resp (status : Nat) (body : Body)
  deriving DecidableEq, Repr

/-- Classification of a probe failure, mirroring which `except` branch of
`fetch_device_info` produced the error entry. -/
inductive ErrClass where
  | timeout
  | connection (msg : String)
  | httpStatus (status : Nat)
  | jsonDecode
  | parseFailed
  deriving DecidableEq, Repr

/-- The dictionary returned by `fetch_device_info` / `parse_device_info`:
`ip` and `online` always present; `hostname` and `settings` only on the
success path; `error` only on failure paths. -/
structure ProbeResult where
  ip : String
  online : Bool
  hostname : Option JVal := none
  settings : Option JObj := none
  error : Option ErrClass := none
  deriving DecidableEq, Repr

/-- The `devices` table: one row per ip (primary key), carrying the stored
hostname.  (`last_seen` is set to `CURRENT_TIMESTAMP` on every write and no
claim inspects it, so it is not carried.) -/
abbrev Registry := List (String × JVal)

/-- SQL `INSERT OR REPLACE INTO devices`: replace the row keyed by `ip`. -/
def Registry.upsert (db : Registry) (ip : String) (hostname : JVal) : Registry :=
  (ip, hostname) :: db.filter (fun r => r.1 ≠ ip)

/-- SQL `SELECT ip FROM devices`. -/
def Registry.ips (db : Registry) : List String :=
  db.map Prod.fst

/-- Row lookup by primary key. -/
def Registry.find (db : Registry) (ip : String) : Option JVal :=
  jget db ip

/-- Primary-key integrity of the `devices` table: ips are pairwise distinct. -/
def Registry.wf (db : Registry) : Prop :=
  db.ips.Nodup

instance (db : Registry) : Decidable db.wf := by
  unfold Registry.wf; infer_instance

/-- The stratum settings dictionary built by `parse_device_info`
(`app.py` lines 51–65), verbatim: twelve `data.get(field, default)` calls. -/
def stratum_settings (data : JObj) : JObj :=
  [ ("stratumURL", jgetD data "stratumURL" (.jstr "")),
    ("stratumPort", jgetD data "stratumPort" (.jnum 0)),
    ("stratumUser", jgetD data "stratumUser" (.jstr "")),
    ("stratumPass", jgetD data "stratumPass" (.jstr "")),
    ("stratumSuggestedDifficulty", jgetD data "stratumSuggestedDifficulty" (.jnum 0)),
    ("stratumExtranonceSubscribe", jgetD data "stratumExtranonceSubscribe" (.jnum 0)),
    ("fallbackStratumURL", jgetD data "fallbackStratumURL" (.jstr "")),
    ("fallbackStratumPort", jgetD data "fallbackStratumPort" (.jnum 0)),
    ("fallbackStratumUser", jgetD data "fallbackStratumUser" (.jstr "")),
    ("fallbackStratumPass", jgetD data "fallbackStratumPass" (.jstr "")),
    ("fallbackStratumSuggestedDifficulty", jgetD data "fallbackStratumSuggestedDifficulty" (.jnum 0)),
    ("fallbackStratumExtranonceSubscribe", jgetD data "fallbackStratumExtranonceSubscribe" (.jnum 0)) ]

/-- Model of `parse_device_info(ip, data)` (`app.py` lines 44–76).  On a `dict` input
it builds the hostname (defaulted to `miner-<ip>`) and the settings dictionary
and returns the parsed record; on a non-`dict` JSON document `data.get`
raises `AttributeError`, the `except Exception` branch logs and returns
`None`. -/
def parse_device_info (ip : String) (data : JTop) : Option ProbeResult :=
  match data with
  | .obj o =>
      some { ip := ip
           , hostname := some (jgetD o "hostname" (.jstr ("miner-" ++ ip)))
           , online := true
           , settings := some (stratum_settings o) }
  | .other _ => none

/-- Model of `fetch_device_info(ip)` (`app.py` lines 78–107), with the database handle
passed explicitly and the network call replaced by its outcome.
`response.raise_for_status()` raises `HTTPError` exactly for
`400 ≤ status < 600`; every `RequestException` (timeout, connection error,
`HTTPError`, `JSONDecodeError`) lands in the branch returning
`{"ip": ip, "online": False, "error": str(e)}`; a successfully parsed payload
is upserted into the `devices` table before being returned. -/
def fetch_device_info (db : Registry) (ip : String) (out : HttpOutcome) :
    ProbeResult × Registry :=
  match out with
  | .timeout =>
      ({ ip := ip, online := false, error := some .timeout }, db)
  | .connError msg =>
      ({ ip := ip, online := false, error := some (.connection msg) }, db)
  | .resp status body =>
      if 400 ≤ status ∧ status < 600 then
        ({ ip := ip, online := false, error := some (.httpStatus status) }, db)
      else
        match body with
        | .invalid =>
            ({ ip := ip, online := false, error := some .jsonDecode }, db)
        | .json data =>
            match parse_device_info ip data with
            | some parsed =>
                (parsed, db.upsert ip (parsed.hostname.getD (.jstr ("miner-" ++ ip))))
            | none =>
                ({ ip := ip, online := false, error := some .parseFailed }, db)

/-! ## Batch probing: `GET /api/devices` -/

/-- The `ThreadPoolExecutor` fan-out/fan-in of `get_devices` (`app.py` lines
127–131): one `fetch_device_info` per ip, every future collected via
`as_completed`.  Workers own disjoint primary keys, so the database writes
are modelled as a sequential linearization; the collected result list is one
entry per submitted ip. -/
def probe_batch (db : Registry) (ips : List String) (outs : String → HttpOutcome) :
    List ProbeResult × Registry :=
  match ips with
  | [] => ([], db)
  | ip :: rest =>
      let r := fetch_device_info db ip (outs ip)
      let rest' := probe_batch r.snd rest outs
      (r.fst :: rest'.fst, rest'.snd)

/-- Handler `get_devices` of `GET /api/devices` (`app.py` lines 116–132):
snapshot the tracked ips, probe them all concurrently, return every result. -/
def get_devices (db : Registry) (outs : String → HttpOutcome) :
    List ProbeResult × Registry :=
  probe_batch db db.ips outs

/-! ## `POST /api/devices` (add) and `DELETE /api/devices/<ip>` -/

/-- Responses produced by the `add_device` handler, by status code. -/
inductive AddResp where
  | badRequest                                   -- 400 "IP address is required"
  | created (ip : String) (hostname : JVal)      -- 201 {"success", "ip", "hostname"}
  deriving DecidableEq, Repr

/-- HTTP status code of an `add_device` response. -/
def AddResp.status : AddResp → Nat
  | .badRequest => 400
  | .created _ _ => 201

/-- Handler `add_device` of `POST /api/devices` (`app.py` lines 134–157), with
the single probe's outcome passed in.  Returns the response, the new registry
state, and the number of probe network calls issued.  The only input check is
Python truthiness of `data.get('ip')`; otherwise the handler probes once,
chooses the reported hostname or the `miner-<ip>` placeholder, upserts, and
answers 201.  (The `except sqlite3.Error` 500 branch is not modelled: the
registry abstraction cannot fail.) -/
def add_device (db : Registry) (body : JObj) (out : HttpOutcome) :
    AddResp × Registry × Nat :=
  match jget body "ip" with
  | none => (.badRequest, db, 0)
  | some v =>
      if v.truthy then
        let ip := v.render
        let fetched := fetch_device_info db ip out
        let hostname :=
          if fetched.fst.online then fetched.fst.hostname.getD (.jstr ("miner-" ++ ip))
          else .jstr ("miner-" ++ ip)
        (.created ip hostname, fetched.snd.upsert ip hostname, 1)
      else (.badRequest, db, 0)

/-- Handler `delete_device` of `DELETE /api/devices/<ip>` (`app.py` lines
159–168): unconditional `DELETE FROM devices WHERE ip = ?`, always 200. -/
def delete_device (db : Registry) (ip : String) : Registry :=
  db.filter (fun r => r.1 ≠ ip)

/-! ## Config push: `POST /api/devices/update` -/

/-- Observable outcome of `requests.patch(url, json=config, timeout=5)`
followed by `raise_for_status()`: a 2xx/1xx/3xx response with a body (no
raise), an `HTTPError` for a 4xx/5xx status (carrying the error-body parse),
or any other `RequestException` (timeout, connection refused, …). -/
inductive PushOutcome where
  | ok (body : Body)
  | httpError (status : Nat) (body : Body)
  | netError (msg : String)
  deriving DecidableEq, Repr

/-- The dictionary returned by `update_device` for one ip. -/
structure PushResult where
  ip : String
  success : Bool
  data : Option JTop := none
  error : Option JVal := none
  deriving DecidableEq, Repr

/-- A PATCH request dispatched to one device: target ip and the JSON payload
sent as the request body. -/
structure PushRequest where
  ip : String
  payload : JObj
  deriving DecidableEq, Repr

/-- Model of `update_device(ip, config)` (`app.py` lines 219–245).  On a non-raising
response it returns `{"success": True, "data": response.json()}` — if that
`response.json()` raises, the `JSONDecodeError` is a `RequestException` and
falls into the "Offline or unreachable" branch.  On `HTTPError` the message
defaults to `HTTP Error: <status>` and is replaced by the device's own
`error` field when the error body parses as a `dict` containing one. -/
def update_device (ip : String) (out : PushOutcome) : PushResult :=
  match out with
  | .ok body =>
      match body with
      | .json v => { ip := ip, success := true, data := some v }
      | .invalid =>
          { ip := ip, success := false
          , error := some (.jstr "Offline or unreachable: JSONDecodeError") }
  | .httpError status body =>
      let fallback : JVal := .jstr ("HTTP Error: " ++ toString status)
      let msg :=
        match body with
        | .json (.obj o) => jgetD o "error" fallback
        | _ => fallback
      { ip := ip, success := false, error := some msg }
  | .netError msg =>
      { ip := ip, success := false
      , error := some (.jstr ("Offline or unreachable: " ++ msg)) }

/-- Handler `update_all_devices` of `POST /api/devices/update` (`app.py` lines
199–217): read the raw JSON payload, snapshot the tracked ips, and submit
`update_device(ip, config_data)` for each — the payload is passed through
verbatim, with no normalization or validation step.  Returns the collected
results and the list of PATCH requests dispatched to the network. -/
def update_all_devices (db : Registry) (config_data : JObj)
    (outs : String → PushOutcome) : List PushResult × List PushRequest :=
  (db.ips.map (fun ip => update_device ip (outs ip)),
   db.ips.map (fun ip => { ip := ip, payload := config_data }))

/-! ## Subnet scanning: `POST /api/scan` -/

/-- The numeric IPv4 address of dotted quad `a.b.c.d`. -/
def toAddr (a b c d : Nat) : Nat :=
  ((a * 256 + b) * 256 + c) * 256 + d

/-- Dotted-quad decomposition of a 32-bit address. -/
def octet (x : Nat) : Nat × Nat × Nat × Nat :=
  (x / 2 ^ 24 % 256, x / 2 ^ 16 % 256, x / 2 ^ 8 % 256, x % 256)

/-- Clear the `32 - p` host bits of `x`: the network address of `x/p`.  This
is what `ipaddress.ip_network(…, strict=False)` computes. -/
def mask32 (x p : Nat) : Nat :=
  x / 2 ^ (32 - p) * 2 ^ (32 - p)

/-- A subnet specification `a.b.c.d/p` as handed to
`ipaddress.ip_network(subnet, strict=False)`, already split into its five
numeric components (the claims concern address semantics, not string
tokenizing). -/
structure SubnetSpec where
  a : Nat
  b : Nat
  c : Nat
  d : Nat
  p : Nat
  deriving DecidableEq, Repr

/-- Octet-range and prefix-range validity, as checked by
`ipaddress.ip_network` (a `ValueError` otherwise). -/
def SubnetSpec.valid (s : SubnetSpec) : Prop :=
  s.a ≤ 255 ∧ s.b ≤ 255 ∧ s.c ≤ 255 ∧ s.d ≤ 255 ∧ s.p ≤ 32

instance (s : SubnetSpec) : Decidable s.valid := by
  unfold SubnetSpec.valid; infer_instance

/-- The numeric address of the spec's address part. -/
def SubnetSpec.addr (s : SubnetSpec) : Nat :=
  toAddr s.a s.b s.c s.d

/-- Model of `IPv4Network.hosts()`: all addresses of the block strictly between the
network and broadcast addresses, except that a /31 yields both of its
addresses and a /32 yields its single address. -/
def hostsList (net p : Nat) : List Nat :=
  if p ≤ 30 then (List.range (2 ^ (32 - p) - 2)).map (fun i => net + 1 + i)
  else if p = 31 then [net, net + 1]
  else [net]

/-- Model of `ipaddress.ip_network(subnet, strict=False)` on a dotted-quad/prefix
spec (`app.py` lines 179–184): reject out-of-range components with a
`ValueError` (the handler's 400), otherwise mask away the host bits and
return the network address. -/
def ip_network_nonstrict (s : SubnetSpec) : Except String Nat :=
  if s.valid then .ok (mask32 s.addr s.p)
  else .error "Invalid subnet"

/-- The address-expansion part of the `scan_network` handler (`app.py` lines
179–186): parse the subnet leniently, then `[str(ip) for ip in
network.hosts()]`. -/
def scan_targets (s : SubnetSpec) : Except String (List Nat) :=
  (ip_network_nonstrict s).map (fun net => hostsList net s.p)

/-! ## Spec-side vocabulary

Definitions in this block follow the specification's words, not the code;
they exist only so that statements can say "syntactically valid address",
"2xx status" or "coercible value" about concrete inputs.  Each is named with
a `spec` prefix to keep the two worlds apart. -/

/-- Numeric value of a list of decimal digit characters. -/
def digitsToNat (cs : List Char) : Nat :=
  cs.foldl (fun n c => n * 10 + (c.toNat - 48)) 0

/-- Groups of characters between the dots of a character list. -/
def splitDots : List Char → List (List Char)
  | [] => [[]]
  | c :: rest =>
      match splitDots rest with
      | [] => [[]]
      | grp :: rs => if c = '.' then [] :: grp :: rs else (c :: grp) :: rs

/-- Spec §4.1: a syntactically valid address is four dot-separated octets,
each in the range 0–255. -/
def specIsDottedQuad (s : String) : Bool :=
  match splitDots s.data with
  | [a, b, c, d] =>
      [a, b, c, d].all fun t =>
        !t.isEmpty && t.all Char.isDigit && digitsToNat t ≤ 255
  | _ => false

/-- Spec §4.5/§8: the declared canonical coercion for integer fields —
a numeric-looking string coerces to the integer it spells, an integer stays
itself, anything else cannot be coerced. -/
def specCoerceToInt : JVal → Option Int
  | .jnum n => some n
  | .jstr s =>
      if !s.isEmpty && s.data.all Char.isDigit then some (digitsToNat s.data)
      else none
  | _ => none

/-- Predicate "status code is 2xx", as used by the claims. -/
def is2xx (status : Nat) : Bool :=
  200 ≤ status && status < 300

/-- The twelve canonical settings fields of §3. -/
def canonicalFields : List String :=
  [ "stratumURL", "stratumPort", "stratumUser", "stratumPass",
    "stratumSuggestedDifficulty", "stratumExtranonceSubscribe",
    "fallbackStratumURL", "fallbackStratumPort", "fallbackStratumUser",
    "fallbackStratumPass", "fallbackStratumSuggestedDifficulty",
    "fallbackStratumExtranonceSubscribe" ]

/-- The default the code declares for each canonical field: the empty string
for URL/user/pass fields, the integer 0 for the numeric fields and both
extranonce-subscribe flags. -/
def canonicalDefault (k : String) : JVal :=
  if k = "stratumURL" ∨ k = "stratumUser" ∨ k = "stratumPass" ∨
     k = "fallbackStratumURL" ∨ k = "fallbackStratumUser" ∨
     k = "fallbackStratumPass"
  then .jstr "" else .jnum 0

/-- The canonical (host-bits-cleared) rewriting of a subnet spec: same prefix
length, address part replaced by the dotted quad of its network address. -/
def SubnetSpec.canonical (s : SubnetSpec) : SubnetSpec :=
  { a := mask32 s.addr s.p / 2 ^ 24 % 256
  , b := mask32 s.addr s.p / 2 ^ 16 % 256
  , c := mask32 s.addr s.p / 2 ^ 8 % 256
  , d := mask32 s.addr s.p % 256
  , p := s.p }

/-! ## Concrete sample inputs used by witnesses and counterexamples -/

/-- A two-device registry. -/
def sampleRegistry : Registry :=
  [("10.0.0.5", .jstr "axe5"), ("10.0.0.6", .jstr "axe6")]

/-- Probe outcome oracle: every host times out. -/
def sampleProbeOuts : String → HttpOutcome := fun _ => .timeout

/-- Push outcome oracle: every host is unreachable. -/
def samplePushOuts : String → PushOutcome := fun _ => .netError "timed out"

/-- The subnet 192.168.1.0/29. -/
def sampleSubnet : SubnetSpec := ⟨192, 168, 1, 0, 29⟩

/-- A subnet spec whose address part has nonzero host bits: 192.168.1.1/24. -/
def sampleHostBitsSubnet : SubnetSpec := ⟨192, 168, 1, 1, 24⟩

/-! ## Helper lemmas -/

/-- The probe result is always tagged with the probed ip. -/
theorem fetch_device_info_ip (db : Registry) (ip : String) (out : HttpOutcome) :
    (fetch_device_info db ip out).fst.ip = ip := by
  cases out with
  | timeout => rfl
  | connError msg => rfl
  | resp status body =>
      by_cases hs : 400 ≤ status ∧ status < 600
      · simp [fetch_device_info, hs]
      · cases body with
        | invalid => simp [fetch_device_info, hs]
        | json v =>
            cases v with
            | obj o => simp [fetch_device_info, hs, parse_device_info]
            | other w => simp [fetch_device_info, hs, parse_device_info]

/-- An offline-classified probe leaves the registry state unchanged. -/
theorem fetch_device_info_offline_snd (db : Registry) (ip : String)
    (out : HttpOutcome) (hoff : (fetch_device_info db ip out).fst.online = false) :
    (fetch_device_info db ip out).snd = db := by
  cases out with
  | timeout => rfl
  | connError msg => rfl
  | resp status body =>
      by_cases hs : 400 ≤ status ∧ status < 600
      · simp [fetch_device_info, hs]
      · cases body with
        | invalid => simp [fetch_device_info, hs]
        | json v =>
            cases v with
            | obj o => simp [fetch_device_info, hs, parse_device_info] at hoff
            | other w => simp [fetch_device_info, hs, parse_device_info]

/-- A probe result is offline exactly when its error field is populated. -/
theorem fetch_device_info_online_iff (db : Registry) (ip : String)
    (out : HttpOutcome) :
    ((fetch_device_info db ip out).fst.online = false ↔
      ((fetch_device_info db ip out).fst.error).isSome = true) := by
  cases out with
  | timeout => simp [fetch_device_info]
  | connError msg => simp [fetch_device_info]
  | resp status body =>
      by_cases hs : 400 ≤ status ∧ status < 600
      · simp [fetch_device_info, hs]
      · cases body with
        | invalid => simp [fetch_device_info, hs]
        | json v =>
            cases v with
            | obj o => simp [fetch_device_info, hs, parse_device_info]
            | other w => simp [fetch_device_info, hs, parse_device_info]

/-- The push result is always tagged with the pushed-to ip. -/
theorem update_device_ip (ip : String) (out : PushOutcome) :
    (update_device ip out).ip = ip := by
  cases out with
  | ok body => cases body with
      | json v => rfl
      | invalid => rfl
  | httpError status body => rfl
  | netError msg => rfl

/-- The probe batch produces one result per submitted ip, in submission
order under the sequential linearization. -/
theorem probe_batch_map_ip (db : Registry) (ips : List String)
    (outs : String → HttpOutcome) :
    (probe_batch db ips outs).fst.map ProbeResult.ip = ips := by
  induction ips generalizing db with
  | nil => rfl
  | cons ip rest ih => simp [probe_batch, fetch_device_info_ip, ih]

/-- Looking up the just-upserted key finds the just-stored hostname. -/
theorem Registry.find_upsert_self (db : Registry) (ip : String) (h : JVal) :
    (db.upsert ip h).find ip = some h := by
  simp [Registry.upsert, Registry.find, jget]

/-- Dotted quads denote addresses below 2^32. -/
theorem toAddr_lt (a b c d : Nat) (ha : a ≤ 255) (hb : b ≤ 255)
    (hc : c ≤ 255) (hd : d ≤ 255) : toAddr a b c d < 2 ^ 32 := by
  unfold toAddr
  norm_num
  omega

/-- Masking the host bits never increases the address. -/
theorem mask32_le (x p : Nat) : mask32 x p ≤ x :=
  Nat.div_mul_le_self x _

/-- Masking preserves the 32-bit bound. -/
theorem mask32_lt (x p : Nat) (h : x < 2 ^ 32) : mask32 x p < 2 ^ 32 :=
  lt_of_le_of_lt (mask32_le x p) h

/-- Masking is idempotent. -/
theorem mask32_idem (x p : Nat) : mask32 (mask32 x p) p = mask32 x p := by
  unfold mask32
  rw [Nat.mul_div_cancel _ (Nat.pos_pow_of_pos _ (by norm_num))]

/-- Recomposing the four octets of a 32-bit address gives it back. -/
theorem addr_recompose (x : Nat) (h : x < 2 ^ 32) :
    toAddr (x / 2 ^ 24 % 256) (x / 2 ^ 16 % 256) (x / 2 ^ 8 % 256) (x % 256) = x := by
  unfold toAddr
  norm_num at h ⊢
  omega

/-- The canonical rewriting of a valid spec is valid. -/
theorem SubnetSpec.canonical_valid (s : SubnetSpec) (hval : s.valid) :
    s.canonical.valid := by
  obtain ⟨-, -, -, -, hp⟩ := hval
  refine ⟨?_, ?_, ?_, ?_, hp⟩ <;>
    exact Nat.le_of_lt_succ (Nat.mod_lt _ (by norm_num))

/-- The canonical rewriting denotes exactly the masked network address. -/
theorem SubnetSpec.canonical_addr (s : SubnetSpec) (hval : s.valid) :
    s.canonical.addr = mask32 s.addr s.p := by
  obtain ⟨ha, hb, hc, hd, -⟩ := hval
  exact addr_recompose _ (mask32_lt _ _ (toAddr_lt _ _ _ _ ha hb hc hd))

/-! ## Claim C1 — config push normalization -/

/-- C1 counterexample: the push endpoint neither coerces nor rejects.  With
the uncoercible payload with stratumPort "abc" it still dispatches one PATCH
per tracked device (the claim demands zero network calls and an
InvalidConfigValue rejection), and with the coercible payload with
stratumPort "3333" the dispatched bodies still carry the raw string rather
than the integer 3333. -/
theorem C1_push_no_normalization_cex :
    specCoerceToInt (.jstr "abc") = none ∧
    (update_all_devices sampleRegistry [("stratumPort", .jstr "abc")]
        samplePushOuts).snd =
      [⟨"10.0.0.5", [("stratumPort", .jstr "abc")]⟩,
       ⟨"10.0.0.6", [("stratumPort", .jstr "abc")]⟩] ∧
    specCoerceToInt (.jstr "3333") = some 3333 ∧
    (update_all_devices sampleRegistry [("stratumPort", .jstr "3333")]
        samplePushOuts).snd.map PushRequest.payload =
      [[("stratumPort", .jstr "3333")], [("stratumPort", .jstr "3333")]] := by
  decide

/-- C1 (amended): `update_all_devices` performs no normalization, coercion or
validation of the inbound payload: it dispatches exactly one PATCH per
tracked address and every dispatched request carries the raw payload
verbatim, whatever its field types. -/
theorem C1_push_forwards_raw_payload (db : Registry) (cfg : JObj)
    (outs : String → PushOutcome) :
    (update_all_devices db cfg outs).snd.length = db.ips.length ∧
    ∀ r ∈ (update_all_devices db cfg outs).snd, r.payload = cfg := by
  constructor
  · simp [update_all_devices]
  · intro r hr
    simp only [update_all_devices, List.mem_map] at hr
    obtain ⟨ip, -, rfl⟩ := hr
    rfl

/-- Witness for C1 (amended) at a concrete registry and payload. -/
theorem C1_push_forwards_raw_payload_witness :
    (update_all_devices sampleRegistry [("stratumPort", JVal.jstr "3333")]
        samplePushOuts).snd.length = sampleRegistry.ips.length ∧
    PushRequest.payload ⟨"10.0.0.5", [("stratumPort", JVal.jstr "3333")]⟩ =
      [("stratumPort", JVal.jstr "3333")] :=
  ⟨(C1_push_forwards_raw_payload sampleRegistry
      [("stratumPort", JVal.jstr "3333")] samplePushOuts).1,
   (C1_push_forwards_raw_payload sampleRegistry
      [("stratumPort", JVal.jstr "3333")] samplePushOuts).2 _ (by decide)⟩

/-! ## Claim C2 — prober totality and failure classification -/

/-- C2 counterexample: a 300-status response (non-2xx) whose body parses as
a JSON object is classified online, because the code's raise-for-status check
only covers 4xx/5xx — contradicting the claim that every non-2xx status
yields an offline result. -/
theorem C2_non2xx_online_cex :
    is2xx 300 = false ∧
    (fetch_device_info [] "10.0.0.5"
      (.resp 300 (.json (.obj [])))).fst.online = true := by
  decide

/-- C2 (amended): the prober is a total classifier — it always returns a
structured result tagged with the probed ip, offline exactly when an error
class is recorded; a timeout gives a timeout-class error, a connection
failure a connection-class error, a 4xx/5xx status an HTTP-status error, and
an unparseable or non-object body a decode/parse error.  (A 1xx/3xx status
whose body parses as an object is classified online.) -/
theorem C2_prober_classification (db : Registry) (ip : String) :
    (∀ out, (fetch_device_info db ip out).fst.ip = ip ∧
      ((fetch_device_info db ip out).fst.online = false ↔
        ((fetch_device_info db ip out).fst.error).isSome = true)) ∧
    ((fetch_device_info db ip .timeout).fst.online = false ∧
     (fetch_device_info db ip .timeout).fst.error = some .timeout) ∧
    (∀ msg, (fetch_device_info db ip (.connError msg)).fst.online = false ∧
      (fetch_device_info db ip (.connError msg)).fst.error =
        some (.connection msg)) ∧
    (∀ status body, 400 ≤ status → status < 600 →
      (fetch_device_info db ip (.resp status body)).fst.online = false ∧
      (fetch_device_info db ip (.resp status body)).fst.error =
        some (.httpStatus status)) ∧
    (∀ status, ¬(400 ≤ status ∧ status < 600) →
      ((fetch_device_info db ip (.resp status .invalid)).fst.online = false ∧
       (fetch_device_info db ip (.resp status .invalid)).fst.error =
         some .jsonDecode) ∧
      ∀ v, (fetch_device_info db ip
              (.resp status (.json (.other v)))).fst.online = false ∧
        (fetch_device_info db ip (.resp status (.json (.other v)))).fst.error =
          some .parseFailed) := by
  refine ⟨fun out => ⟨fetch_device_info_ip db ip out,
            fetch_device_info_online_iff db ip out⟩,
          ⟨rfl, rfl⟩, fun msg => ⟨rfl, rfl⟩, ?_, ?_⟩
  · intro status body h4 h6
    have hs : 400 ≤ status ∧ status < 600 := ⟨h4, h6⟩
    constructor <;> simp [fetch_device_info, hs]
  · intro status hs
    refine ⟨?_, fun v => ?_⟩ <;>
      constructor <;> simp [fetch_device_info, hs, parse_device_info]

/-- Witness for C2 (amended): a 404 response is classified offline with an
HTTP-status error, and a timeout is classified offline. -/
theorem C2_prober_classification_witness :
    ((fetch_device_info [] "10.0.0.5" (.resp 404 Body.invalid)).fst.online = false ∧
     (fetch_device_info [] "10.0.0.5" (.resp 404 Body.invalid)).fst.error =
       some (.httpStatus 404)) ∧
    (fetch_device_info [] "10.0.0.5" HttpOutcome.timeout).fst.online = false :=
  ⟨(C2_prober_classification [] "10.0.0.5").2.2.2.1 404 Body.invalid
     (by decide) (by decide),
   ((C2_prober_classification [] "10.0.0.5").2.1).1⟩

/-! ## Claim C3 — batch completeness -/

/-- C3: on a registry with pairwise-distinct primary keys, the probe-all
endpoint and the push-all endpoint each return exactly one result per
tracked address, every result carries its originating address, and those
addresses are pairwise distinct — independently of how the per-address
outcomes fall out (the outcome oracles are universally quantified). -/
theorem C3_batch_one_result_per_address (db : Registry)
    (pouts : String → HttpOutcome) (cfg : JObj)
    (uouts : String → PushOutcome) (hwf : db.wf) :
    ((get_devices db pouts).fst.length = db.ips.length ∧
     (get_devices db pouts).fst.map ProbeResult.ip = db.ips ∧
     ((get_devices db pouts).fst.map ProbeResult.ip).Nodup) ∧
    ((update_all_devices db cfg uouts).fst.length = db.ips.length ∧
     (update_all_devices db cfg uouts).fst.map PushResult.ip = db.ips ∧
     ((update_all_devices db cfg uouts).fst.map PushResult.ip).Nodup) := by
  have hprobe : (get_devices db pouts).fst.map ProbeResult.ip = db.ips :=
    probe_batch_map_ip db db.ips pouts
  have hpush : (update_all_devices db cfg uouts).fst.map PushResult.ip = db.ips := by
    simp [update_all_devices, Function.comp_def, update_device_ip]
  refine ⟨⟨?_, hprobe, ?_⟩, ⟨?_, hpush, ?_⟩⟩
  · have := congrArg List.length hprobe
    simpa using this
  · rw [hprobe]; exact hwf
  · have := congrArg List.length hpush
    simpa using this
  · rw [hpush]; exact hwf

/-- Witness for C3 at a concrete two-device registry with every probe timing
out and every push unreachable. -/
theorem C3_batch_one_result_per_address_witness :
    ((get_devices sampleRegistry sampleProbeOuts).fst.length =
       sampleRegistry.ips.length ∧
     (get_devices sampleRegistry sampleProbeOuts).fst.map ProbeResult.ip =
       sampleRegistry.ips ∧
     ((get_devices sampleRegistry sampleProbeOuts).fst.map ProbeResult.ip).Nodup) ∧
    ((update_all_devices sampleRegistry [] samplePushOuts).fst.length =
       sampleRegistry.ips.length ∧
     (update_all_devices sampleRegistry [] samplePushOuts).fst.map PushResult.ip =
       sampleRegistry.ips ∧
     ((update_all_devices sampleRegistry [] samplePushOuts).fst.map
        PushResult.ip).Nodup) :=
  C3_batch_one_result_per_address sampleRegistry sampleProbeOuts []
    samplePushOuts (by decide)

/-! ## Claim C5 — probe side effects -/

/-- C5 counterexample: a successful probe is not side-effect-free — starting
from an empty registry, probing an address that answers 200 with a JSON
object leaves a freshly written registry row behind. -/
theorem C5_probe_writes_on_success_cex :
    (fetch_device_info [] "10.0.0.5"
       (.resp 200 (.json (.obj [])))).fst.online = true ∧
    (fetch_device_info [] "10.0.0.5" (.resp 200 (.json (.obj [])))).snd =
      [("10.0.0.5", .jstr "miner-10.0.0.5")] ∧
    [("10.0.0.5", JVal.jstr "miner-10.0.0.5")] ≠ ([] : Registry) := by
  decide

/-- C5 (amended): the prober performs no registry write on any failure
outcome, but on a successful probe it upserts the device row (keyed by the
probed ip, storing the reported hostname) itself rather than leaving
persistence to its caller. -/
theorem C5_probe_side_effect (db : Registry) (ip : String) (out : HttpOutcome) :
    ((fetch_device_info db ip out).fst.online = false →
      (fetch_device_info db ip out).snd = db) ∧
    ((fetch_device_info db ip out).fst.online = true →
      ∃ h, (fetch_device_info db ip out).fst.hostname = some h ∧
        (fetch_device_info db ip out).snd = db.upsert ip h) := by
  refine ⟨fetch_device_info_offline_snd db ip out, ?_⟩
  intro hon
  cases out with
  | timeout => simp [fetch_device_info] at hon
  | connError msg => simp [fetch_device_info] at hon
  | resp status body =>
      by_cases hs : 400 ≤ status ∧ status < 600
      · simp [fetch_device_info, hs] at hon
      · cases body with
        | invalid => simp [fetch_device_info, hs] at hon
        | json v =>
            cases v with
            | obj o =>
                refine ⟨jgetD o "hostname" (.jstr ("miner-" ++ ip)), ?_, ?_⟩ <;>
                  simp [fetch_device_info, hs, parse_device_info]
            | other w => simp [fetch_device_info, hs, parse_device_info] at hon

/-- Witness for C5 (amended): a timed-out probe leaves the sample registry
untouched. -/
theorem C5_probe_side_effect_witness :
    (fetch_device_info sampleRegistry "10.0.0.5" HttpOutcome.timeout).snd =
      sampleRegistry :=
  (C5_probe_side_effect sampleRegistry "10.0.0.5" HttpOutcome.timeout).1 rfl

/-! ## Claim C9 — failed probes preserve the registry -/

/-- C9: when a probe is classified offline, the registry is untouched: every
record keeps exactly its stored hostname (nothing is deleted or overwritten),
and if the probed address was not tracked it is still not tracked
afterwards. -/
theorem C9_failed_probe_preserves_registry (db : Registry) (ip addr : String)
    (out : HttpOutcome)
    (hoff : (fetch_device_info db ip out).fst.online = false) :
    (fetch_device_info db ip out).snd.find addr = db.find addr ∧
    (db.find ip = none → (fetch_device_info db ip out).snd.find ip = none) := by
  have hsnd := fetch_device_info_offline_snd db ip out hoff
  rw [hsnd]
  exact ⟨rfl, fun h => h⟩

/-- Witness for C9: a timed-out probe of a tracked address keeps its
hostname row intact. -/
theorem C9_failed_probe_preserves_registry_witness :
    (fetch_device_info sampleRegistry "10.0.0.6" HttpOutcome.timeout).snd.find
        "10.0.0.6" = sampleRegistry.find "10.0.0.6" ∧
    (sampleRegistry.find "10.0.0.6" = none →
      (fetch_device_info sampleRegistry "10.0.0.6"
        HttpOutcome.timeout).snd.find "10.0.0.6" = none) :=
  C9_failed_probe_preserves_registry sampleRegistry "10.0.0.6" "10.0.0.6"
    HttpOutcome.timeout rfl

/-! ## Claim C4 — host count of a subnet expansion -/

/-- C4: for every in-range subnet spec with prefix length at most 30, the
scan expansion succeeds and yields exactly 2^(32−P) − 2 host addresses, with
the network address and the broadcast address both excluded. -/
theorem C4_subnet_host_count (s : SubnetSpec) (hval : s.valid) (hp : s.p ≤ 30) :
    scan_targets s = .ok (hostsList (mask32 s.addr s.p) s.p) ∧
    (hostsList (mask32 s.addr s.p) s.p).length = 2 ^ (32 - s.p) - 2 ∧
    mask32 s.addr s.p ∉ hostsList (mask32 s.addr s.p) s.p ∧
    mask32 s.addr s.p + 2 ^ (32 - s.p) - 1 ∉
      hostsList (mask32 s.addr s.p) s.p := by
  have hK : 4 ≤ 2 ^ (32 - s.p) := by
    have h2 : (2 : Nat) ^ 2 ≤ 2 ^ (32 - s.p) :=
      Nat.pow_le_pow_right (by norm_num) (by omega)
    simpa using h2
  refine ⟨?_, ?_, ?_, ?_⟩
  · simp [scan_targets, ip_network_nonstrict, hval, Except.map]
  · simp [hostsList, hp]
  · intro hmem
    simp only [hostsList, hp, if_true, List.mem_map, List.mem_range] at hmem
    obtain ⟨i, hi, heq⟩ := hmem
    omega
  · intro hmem
    simp only [hostsList, hp, if_true, List.mem_map, List.mem_range] at hmem
    obtain ⟨i, hi, heq⟩ := hmem
    omega

/-- Witness for C4 at 192.168.1.0/29: six usable hosts. -/
theorem C4_subnet_host_count_witness :
    scan_targets sampleSubnet =
      .ok (hostsList (mask32 sampleSubnet.addr sampleSubnet.p) sampleSubnet.p) ∧
    (hostsList (mask32 sampleSubnet.addr sampleSubnet.p) sampleSubnet.p).length =
      2 ^ (32 - sampleSubnet.p) - 2 ∧
    mask32 sampleSubnet.addr sampleSubnet.p ∉
      hostsList (mask32 sampleSubnet.addr sampleSubnet.p) sampleSubnet.p ∧
    mask32 sampleSubnet.addr sampleSubnet.p + 2 ^ (32 - sampleSubnet.p) - 1 ∉
      hostsList (mask32 sampleSubnet.addr sampleSubnet.p) sampleSubnet.p :=
  C4_subnet_host_count sampleSubnet (by decide) (by decide)

/-! ## Claim C6 — add-device address validation -/

/-- C6 counterexample: the add endpoint performs no address-syntax check.
The string "not-an-ip" is not a dotted quad, yet the handler answers 201
created (not an InvalidAddress client error), issues one probe network call
(not zero), and writes a registry record for the bogus address. -/
theorem C6_no_address_validation_cex :
    specIsDottedQuad "not-an-ip" = false ∧
    add_device [] [("ip", JVal.jstr "not-an-ip")] (.connError "refused") =
      (AddResp.created "not-an-ip" (JVal.jstr "miner-not-an-ip"),
       [("not-an-ip", JVal.jstr "miner-not-an-ip")], 1) := by
  decide

/-- C6 (amended): the only input check of the add endpoint is Python
truthiness of the ip field: the handler answers 400 exactly when the field is
absent or falsy, in which case the registry is untouched and no network call
is made; any present truthy value — dotted quad or not — is probed exactly
once. -/
theorem C6_add_device_validation (db : Registry) (body : JObj)
    (out : HttpOutcome) :
    ((add_device db body out).1 = .badRequest ↔
      (jget body "ip").any JVal.truthy = false) ∧
    ((add_device db body out).1 = .badRequest →
      add_device db body out = (.badRequest, db, 0)) ∧
    (∀ v, jget body "ip" = some v → v.truthy = true →
      (add_device db body out).2.2 = 1) := by
  cases hv : jget body "ip" with
  | none =>
      refine ⟨by simp [add_device, hv], fun _ => by simp [add_device, hv], ?_⟩
      intro v hsome
      simp [hv] at hsome
  | some v =>
      cases ht : v.truthy with
      | false =>
          refine ⟨by simp [add_device, hv, ht], fun _ => by simp [add_device, hv, ht], ?_⟩
          intro w hsome htw
          injection hsome with hw
          rw [← hw, ht] at htw
          cases htw
      | true =>
          refine ⟨by simp [add_device, hv, ht], ?_, ?_⟩
          · intro hbad
            simp [add_device, hv, ht] at hbad
          · intro w hsome htw
            simp [add_device, hv, ht]

/-- Witness for C6 (amended): a body without an ip field is rejected with
400 and no side effect; a body with a truthy ip triggers exactly one probe. -/
theorem C6_add_device_validation_witness :
    add_device sampleRegistry [] HttpOutcome.timeout =
      (.badRequest, sampleRegistry, 0) ∧
    (add_device sampleRegistry [("ip", JVal.jstr "10.0.0.7")]
        HttpOutcome.timeout).2.2 = 1 :=
  ⟨(C6_add_device_validation sampleRegistry [] HttpOutcome.timeout).2.1
     ((C6_add_device_validation sampleRegistry [] HttpOutcome.timeout).1.mpr
       (by decide)),
   (C6_add_device_validation sampleRegistry [("ip", JVal.jstr "10.0.0.7")]
      HttpOutcome.timeout).2.2 (JVal.jstr "10.0.0.7") (by decide) (by decide)⟩

/-! ## Claim C7 — add-device response on unreachable device -/

/-- C7 counterexample: adding the syntactically valid address 10.0.0.5 whose
probe times out (an offline classification) still answers 201 created with
the placeholder hostname — there is no 404-class "added but unreachable"
response. -/
theorem C7_unreachable_still_201_cex :
    specIsDottedQuad "10.0.0.5" = true ∧
    (fetch_device_info [] "10.0.0.5" HttpOutcome.timeout).fst.online = false ∧
    (add_device [] [("ip", JVal.jstr "10.0.0.5")] HttpOutcome.timeout).1.status
      = 201 ∧
    (add_device [] [("ip", JVal.jstr "10.0.0.5")] HttpOutcome.timeout).1 =
      AddResp.created "10.0.0.5" (JVal.jstr "miner-10.0.0.5") := by
  decide

/-- C7 (amended): with a present truthy address the add endpoint probes
exactly once, upserts, and answers 201 with the stored record regardless of
the probe outcome; when the probe is classified offline the stored hostname
is the synthesized placeholder. -/
theorem C7_add_device_always_created (db : Registry) (body : JObj)
    (out : HttpOutcome) (v : JVal) (hv : jget body "ip" = some v)
    (ht : v.truthy = true) :
    (add_device db body out).2.2 = 1 ∧
    (add_device db body out).1.status = 201 ∧
    ∃ h, (add_device db body out).1 = .created v.render h ∧
      (add_device db body out).2.1.find v.render = some h ∧
      ((fetch_device_info db v.render out).fst.online = false →
        h = .jstr ("miner-" ++ v.render)) := by
  refine ⟨?_, ?_, ?_⟩
  · simp [add_device, hv, ht]
  · simp [add_device, hv, ht, AddResp.status]
  · refine ⟨(if (fetch_device_info db v.render out).fst.online then
        (fetch_device_info db v.render out).fst.hostname.getD
          (.jstr ("miner-" ++ v.render))
      else .jstr ("miner-" ++ v.render)), ?_, ?_, ?_⟩
    · simp [add_device, hv, ht]
    · simp [add_device, hv, ht, Registry.find_upsert_self]
    · intro hoff
      simp [hoff]

/-- Witness for C7 (amended) at a concrete timed-out add. -/
theorem C7_add_device_always_created_witness :
    (add_device sampleRegistry [("ip", JVal.jstr "10.0.0.7")]
        HttpOutcome.timeout).2.2 = 1 ∧
    (add_device sampleRegistry [("ip", JVal.jstr "10.0.0.7")]
        HttpOutcome.timeout).1.status = 201 ∧
    ∃ h, (add_device sampleRegistry [("ip", JVal.jstr "10.0.0.7")]
            HttpOutcome.timeout).1 = .created (JVal.jstr "10.0.0.7").render h ∧
      (add_device sampleRegistry [("ip", JVal.jstr "10.0.0.7")]
          HttpOutcome.timeout).2.1.find (JVal.jstr "10.0.0.7").render = some h ∧
      ((fetch_device_info sampleRegistry (JVal.jstr "10.0.0.7").render
          HttpOutcome.timeout).fst.online = false →
        h = .jstr ("miner-" ++ (JVal.jstr "10.0.0.7").render)) :=
  C7_add_device_always_created sampleRegistry [("ip", JVal.jstr "10.0.0.7")]
    HttpOutcome.timeout (JVal.jstr "10.0.0.7") (by decide) (by decide)

/-! ## Claim C8 — totality of settings normalization -/

/-- C8: on any JSON-object payload the normalization is total — parsing never
fails, the produced settings mapping lists exactly the twelve canonical
fields in order, and each field holds the raw value when present and its
declared default when absent. -/
theorem C8_settings_normalization_total (ip : String) (o : JObj) :
    (parse_device_info ip (.obj o)).isSome = true ∧
    (∀ r, parse_device_info ip (.obj o) = some r →
      r.settings = some (stratum_settings o)) ∧
    (stratum_settings o).map Prod.fst = canonicalFields ∧
    ∀ k ∈ canonicalFields,
      jget (stratum_settings o) k = some (jgetD o k (canonicalDefault k)) := by
  refine ⟨rfl, ?_, rfl, ?_⟩
  · intro r hr
    simp only [parse_device_info, Option.some.injEq] at hr
    rw [← hr]
  · intro k hk
    fin_cases hk <;> rfl

/-- Witness for C8 at a one-field payload: the present field keeps its raw
value and parsing succeeded. -/
theorem C8_settings_normalization_total_witness :
    (parse_device_info "10.0.0.5"
       (.obj [("stratumPort", JVal.jnum 3333)])).isSome = true ∧
    jget (stratum_settings [("stratumPort", JVal.jnum 3333)]) "stratumPort" =
      some (jgetD [("stratumPort", JVal.jnum 3333)] "stratumPort"
        (canonicalDefault "stratumPort")) :=
  ⟨(C8_settings_normalization_total "10.0.0.5"
      [("stratumPort", JVal.jnum 3333)]).1,
   (C8_settings_normalization_total "10.0.0.5"
      [("stratumPort", JVal.jnum 3333)]).2.2.2 "stratumPort" (by decide)⟩

/-! ## Claim C10 — lenient acceptance of host-bit subnet specs -/

/-- C10: a subnet spec whose address part still has host bits set is not
rejected: the lenient parse accepts it, and it expands to exactly the host
list of the canonical (network-address) rewriting of the same spec. -/
theorem C10_host_bits_accepted (s : SubnetSpec) (hval : s.valid)
    (hhost : mask32 s.addr s.p ≠ s.addr) :
    scan_targets s = .ok (hostsList (mask32 s.addr s.p) s.p) ∧
    scan_targets s.canonical = scan_targets s ∧
    s.canonical.addr = mask32 s.addr s.p ∧
    s.canonical.addr ≠ s.addr := by
  have hval2 : s.canonical.valid := SubnetSpec.canonical_valid s hval
  have hca : s.canonical.addr = mask32 s.addr s.p :=
    SubnetSpec.canonical_addr s hval
  have hone : scan_targets s = .ok (hostsList (mask32 s.addr s.p) s.p) := by
    simp [scan_targets, ip_network_nonstrict, hval, Except.map]
  refine ⟨hone, ?_, hca, by rw [hca]; exact hhost⟩
  have hp2 : s.canonical.p = s.p := rfl
  have h2 : scan_targets s.canonical =
      .ok (hostsList (mask32 s.canonical.addr s.canonical.p) s.canonical.p) := by
    simp [scan_targets, ip_network_nonstrict, hval2, Except.map]
  rw [h2, hp2, hca, mask32_idem, hone]

/-- Witness for C10 at 192.168.1.1/24, whose address part has host bits. -/
theorem C10_host_bits_accepted_witness :
    scan_targets sampleHostBitsSubnet =
      .ok (hostsList (mask32 sampleHostBitsSubnet.addr sampleHostBitsSubnet.p)
            sampleHostBitsSubnet.p) ∧
    scan_targets sampleHostBitsSubnet.canonical =
      scan_targets sampleHostBitsSubnet ∧
    sampleHostBitsSubnet.canonical.addr =
      mask32 sampleHostBitsSubnet.addr sampleHostBitsSubnet.p ∧
    sampleHostBitsSubnet.canonical.addr ≠ sampleHostBitsSubnet.addr :=
  C10_host_bits_accepted sampleHostBitsSubnet (by decide) (by decide)

end AxePool
